import Mathlib

/-!
Verification of the YBSNow order scraper (`src/Ybsnow_Order_Scraper.py`)
against its natural-language specification.

The development shallowly embeds the three core functions of the scraper:

* `YBSNowScraper._clean_df`       (column normalisation)
* `YBSNowScraper.parse_orders_table` (table selection)
* `YBSNowScraper.save_outputs`    (output writing)

Modelling conventions:

* A pandas cell is `Cell`: `null` models a float NaN (the missing-value
  marker produced by `pandas.read_html`), `str` a Python string, `int` a
  Python integer.  For this value universe a pandas column has dtype
  `object` exactly when it contains at least one string (ints mixed with
  NaN are float64, pure ints are int64, all-NaN is float64).
* `str(x)` on a cell is `Cell.toPyStr` (`str(nan) = "nan"`).
* Python `str.strip()` is `pyStrip` (drop whitespace from both ends);
  `str.replace("\n", " ")` is `replaceNl` (the pattern is a single
  character, so it is a character map).
* A `DataFrame` is its ordered list of named columns; the row list is
  recovered by transposition (`dfRows`).
-/

namespace YBS

/-- ASCII whitespace as recognised by Python's `str.strip()`. -/
def isSpace (c : Char) : Bool :=
  c = ' ' || c = '\t' || c = '\n' || c = '\r' || c = '\x0b' || c = '\x0c'

/-- The character map performed by `.replace("\n", " ")`. -/
def nlToSp (c : Char) : Char := if c = '\n' then ' ' else c

/-- Drop whitespace from both ends of a character list (Python `strip`). -/
def trimChars (l : List Char) : List Char :=
  List.rdropWhile isSpace (List.dropWhile isSpace l)

/-- Python `s.strip()`. -/
def pyStrip (s : String) : String := String.mk (trimChars s.toList)

/-- Python `s.replace("\n", " ")`. -/
def replaceNl (s : String) : String := String.mk (s.toList.map nlToSp)

/-- Header normalisation: `str(c).strip().replace("\n", " ")`
(line 170 of the source). -/
def cleanHeader (s : String) : String := replaceNl (pyStrip s)

/-- A pandas cell value. -/
inductive Cell where
  | null
  | str (s : String)
  | int (n : Int)
  deriving DecidableEq

/-- Is the cell the missing-value marker (NaN)? -/
def Cell.isNull : Cell → Bool
  | .null => true
  | _ => false

/-- Is the cell a Python string? -/
def Cell.isStr : Cell → Bool
  | .str _ => true
  | _ => false

/-- Python `str(x)` of a cell; `str(nan)` is the literal `"nan"`. -/
def Cell.toPyStr : Cell → String
  | .null => "nan"
  | .str s => s
  | .int n => toString n

/-- A named column of a data frame. -/
structure Col where
  name : String
  cells : List Cell
  deriving DecidableEq

/-- A pandas data frame: its ordered list of columns. -/
structure DataFrame where
  cols : List Col
  deriving DecidableEq

/-- `len(df)`: the number of rows (length of the leading column). -/
def DataFrame.nrows (df : DataFrame) : Nat :=
  match df.cols with
  | [] => 0
  | c :: _ => c.cells.length

/-- dtype inference on the `Cell` universe: a column is `object`-typed
exactly when it holds at least one string. -/
def Col.isObject (c : Col) : Bool := c.cells.any Cell.isStr

/-- `dropna(axis=1, how="all")` keeps a column exactly when some cell is
not null (pandas drops columns whose non-null count is zero, which also
drops every column of a zero-row frame). -/
def Col.hasNonNull (c : Col) : Bool := c.cells.any (fun x => !x.isNull)

/-- One cell of `df[col].astype(str).str.strip()`. -/
def stripCell (x : Cell) : Cell := .str (pyStrip x.toPyStr)

/-- The per-column body of the loop at lines 174-176: string-typed
(`object` dtype) columns have every cell stringified and stripped; other
columns are untouched. -/
def cleanCol (c : Col) : Col :=
  if c.isObject then { c with cells := c.cells.map stripCell } else c

/-- `YBSNowScraper._clean_df` (lines 168-177): normalise the header
labels, drop all-null columns, strip string cells.  The source performs
no required-column validation, no optional-column backfill and no row
deduplication: it is total and returns a frame with the same rows. -/
def _clean_df (df : DataFrame) : DataFrame :=
  let renamed := df.cols.map (fun c => { c with name := cleanHeader c.name })
  let kept := renamed.filter Col.hasNonNull
  { cols := kept.map cleanCol }

/-- The rows of a frame, in order (transpose of the column lists). -/
def dfRows (df : DataFrame) : List (List Cell) :=
  (df.cols.map Col.cells).transpose

/- ## Table selection (`parse_orders_table`, lines 122-166) -/

/-- The three known attribute selectors, in source order (lines
130-134). -/
inductive Selector where
  | idOrders
  | classOrders
  | classTableStriped
  deriving DecidableEq

def SELECTORS : List Selector := [.idOrders, .classOrders, .classTableStriped]

/-- A `<table>` element of the fetched document: its `id` attribute, its
raw `class` attribute, and the first data frame `pd.read_html` yields
for it (`none` when `read_html(str(table))` raises `ValueError`, as for
an empty table). -/
structure HtmlTable where
  id : Option String
  classAttr : Option String
  parse : Option DataFrame
  deriving DecidableEq

/-- The fetched HTML document: its `<table>` elements in document
order. -/
structure HtmlDoc where
  tables : List HtmlTable
  deriving DecidableEq

/-- Split a class attribute on whitespace (how BeautifulSoup tokenises
the multi-valued `class` attribute). -/
def wordsAux : List Char → List Char → List String
  | [], acc => if acc.isEmpty then [] else [String.mk acc.reverse]
  | c :: rest, acc =>
    if isSpace c then
      if acc.isEmpty then wordsAux rest [] else String.mk acc.reverse :: wordsAux rest []
    else wordsAux rest (c :: acc)

def pyWords (s : String) : List String := wordsAux s.toList []

/-- BeautifulSoup `soup.find("table", attrs=...)` matching: an exact
`id`; a single class token among the element's class list; a multi-word
class search string compared against the whole attribute value. -/
def matchesSel (sel : Selector) (t : HtmlTable) : Bool :=
  match sel with
  | .idOrders => decide (t.id = some "orders")
  | .classOrders =>
    match t.classAttr with
    | some s => (pyWords s).contains "orders"
    | none => false
  | .classTableStriped => decide (t.classAttr = some "table table-striped")

/-- `soup.find(...)`: the first matching table in document order. -/
def findTable (doc : HtmlDoc) (sel : Selector) : Option HtmlTable :=
  doc.tables.find? (matchesSel sel)

/-- The strategy-1 loop over `SELECTORS` (lines 135-141): the first
selector with a match wins. -/
def firstSelectorMatchAux : List Selector → HtmlDoc → Option HtmlTable
  | [], _ => none
  | sel :: rest, doc =>
    match findTable doc sel with
    | some t => some t
    | none => firstSelectorMatchAux rest doc

def firstSelectorMatch (doc : HtmlDoc) : Option HtmlTable :=
  firstSelectorMatchAux SELECTORS doc

/-- `pd.read_html(html)` over the whole page (line 145): every parseable
table, in document order; the `ValueError` raised when none parse is
caught and yields `[]` (lines 146-147). -/
def parsedTables (doc : HtmlDoc) : List DataFrame :=
  doc.tables.filterMap HtmlTable.parse

/-- The scoring vocabulary `preferred_cols` (lines 150-152). -/
def preferred_cols : List String :=
  ["Order", "Order #", "Order ID", "PO", "Customer", "Workstation", "Status", "Date", "Due"]

def lowerChars (s : String) : List Char := s.toList.map Char.toLower

/-- Does the first list start the second? -/
def leadsList : List Char → List Char → Bool
  | [], _ => true
  | _ :: _, [] => false
  | a :: as, b :: bs => a == b && leadsList as bs

/-- Contiguous-sublist test (Python's `in` on strings). -/
def isSubOf (needle : List Char) : List Char → Bool
  | [] => needle.isEmpty
  | b :: bs => leadsList needle (b :: bs) || isSubOf needle bs

/-- Python `needle.lower() in hay.lower()` (substring test). -/
def containsCI (needle hay : String) : Bool :=
  isSubOf (lowerChars needle) (lowerChars hay)

/-- Line 156: the relevance score of a candidate table — the number of
its columns whose name contains, case-insensitively, some vocabulary
term. -/
def score (df : DataFrame) : Nat :=
  df.cols.countP (fun c => preferred_cols.any (fun pc => containsCI pc c.name))

/-- Line 157's degeneracy test: more than one column and at least one
row. -/
def survivesB (df : DataFrame) : Bool :=
  decide (1 < df.cols.length) && decide (0 < df.nrows)

/-- The best-table loop of lines 153-159: fold over the enumerated
candidate list, replacing the incumbent only on a strictly greater score
(so ties keep the earlier table), and only for non-degenerate tables.
`k` is the index of the head of the remaining list. -/
def bestLoop : List DataFrame → Nat → Option Nat → Int → Option Nat × Int
  | [], _, bi, bs => (bi, bs)
  | df :: rest, k, bi, bs =>
    if bs < (score df : Int) ∧ survivesB df = true then
      bestLoop rest (k + 1) (some k) (score df)
    else
      bestLoop rest (k + 1) bi bs

/-- `best_idx` after the loop, starting from `best_idx = None`,
`best_score = -1`. -/
def best_idx (tables : List DataFrame) : Option Nat :=
  (bestLoop tables 0 none (-1)).1

/-- The errors `parse_orders_table` can raise. -/
inductive ScrapeError where
  | noTablesFound
  | readHtmlFailed
  deriving DecidableEq

/-- `YBSNowScraper.parse_orders_table` (lines 122-166).
`noTablesFound` is the `ValueError("No HTML tables found on Orders
page.")` of line 162; `readHtmlFailed` is the `ValueError` that
propagates out of the un-guarded `pd.read_html(str(table))` of line 138
when the matched table is unparseable.  The inner `none` branch of the
scoring arm is unreachable: `best_idx` only produces valid indices. -/
def parse_orders_table (doc : HtmlDoc) : Except ScrapeError DataFrame :=
  match firstSelectorMatch doc with
  | some t =>
    match t.parse with
    | some df => .ok (_clean_df df)
    | none => .error .readHtmlFailed
  | none =>
    let tables := parsedTables doc
    match best_idx tables with
    | some i =>
      match tables[i]? with
      | some df => .ok (_clean_df df)
      | none => .error .readHtmlFailed
    | none =>
      match tables.head? with
      | some df => .ok (_clean_df df)
      | none => .error .noTablesFound

/- ## Concrete frames used by the claims -/

/-- The input of `test_clean_df_missing_required_columns`:
`pd.DataFrame({"foo": [1], "bar": [2]})`. -/
def dfFooBar : DataFrame :=
  ⟨[⟨"foo", [.int 1]⟩, ⟨"bar", [.int 2]⟩]⟩

/-- The input of `test_clean_df_fills_optional_columns`: the three
required columns and nothing else. -/
def dfReqOnly : DataFrame :=
  ⟨[⟨"order_id", [.int 1]⟩, ⟨"date", [.str "2024-06-01"]⟩, ⟨"total", [.int 10]⟩]⟩

/-- The §8 concrete-scenario table: header `["order_id","date","total"]`,
rows `[(2,"2024-06-02",20),(1,"2024-06-01",10),(1,"2024-06-01",10),(3,"2024-06-03",30)]`. -/
def dfScenario : DataFrame :=
  ⟨[⟨"order_id", [.int 2, .int 1, .int 1, .int 3]⟩,
    ⟨"date", [.str "2024-06-02", .str "2024-06-01", .str "2024-06-01", .str "2024-06-03"]⟩,
    ⟨"total", [.int 20, .int 10, .int 10, .int 30]⟩]⟩

/- ## Output writing (`save_outputs`, lines 179-190) -/

/-- The logical content written to one target: the header (the frame's
column names in column order) and the records (the frame's rows in
order).  `to_csv(index=False)`, `to_excel(index=False)` and
`to_sql(..., index=False)` all serialise exactly this. -/
structure FileContent where
  header : List String
  records : List (List Cell)
  deriving DecidableEq

def dfContent (df : DataFrame) : FileContent :=
  { header := df.cols.map Col.name, records := dfRows df }

/-- The observable state of the four output locations the spec names.
`dbOrders` is the `orders` table of the SQLite file (`none` when
absent); `jsonFile` is the hypothetical JSON artifact — the source
never writes one (`ScrapeConfig` has no `out_json` and `save_outputs`
never calls `to_json`). -/
structure OutputState where
  csvFile : Option FileContent
  xlsxFile : Option FileContent
  jsonFile : Option FileContent
  dbOrders : Option FileContent
  deriving DecidableEq

/-- Identifies which write raised. -/
inductive WTarget where
  | csvT
  | xlsxT
  | dbT
  deriving DecidableEq

/-- The `OSError`/`sqlite3` exception propagating out of `save_outputs`:
it names the failing call and carries no record of earlier successes. -/
structure IOErr where
  failed : WTarget
  deriving DecidableEq

/-- Environment oracle: whether the filesystem lets each of the three
writes succeed. -/
structure WriteOracle where
  csvOk : Bool
  xlsxOk : Bool
  dbOk : Bool

/-- `YBSNowScraper.save_outputs` (lines 179-190) with its filesystem
effects made explicit.  The source performs, in order and with no
`try`/`except` around any of them: `df.to_csv`, `df.to_excel`,
`sqlite3.connect` + `df.to_sql("orders", conn, if_exists="replace")`.
An exception from any write propagates immediately, skipping the
remaining writes; nothing already written is removed; on success the
Python returns the three absolute paths (modelled as `.ok ()`, paths
carry no further information here). -/
def save_outputs_f (df : DataFrame) (s : OutputState) (o : WriteOracle) :
    OutputState × Except IOErr Unit :=
  if o.csvOk = false then (s, .error ⟨.csvT⟩)
  else
    let s1 := { s with csvFile := some (dfContent df) }
    if o.xlsxOk = false then (s1, .error ⟨.xlsxT⟩)
    else
      let s2 := { s1 with xlsxFile := some (dfContent df) }
      if o.dbOk = false then (s2, .error ⟨.dbT⟩)
      else ({ s2 with dbOrders := some (dfContent df) }, .ok ())

/-- `save_outputs` on a filesystem that accepts every write. -/
def save_outputs (df : DataFrame) (s : OutputState) : OutputState :=
  (save_outputs_f df s ⟨true, true, true⟩).1

end YBS

namespace YBS

/- ## String-normalisation lemmas -/

theorem toList_mk (l : List Char) : (String.mk l).toList = l := rfl

/-- The head of a `dropWhile` result falsifies the predicate. -/
theorem head_not_of_dropWhile {α : Type} (p : α → Bool) :
    ∀ (l : List α) (d : α) (t : List α), List.dropWhile p l = d :: t → p d = false := by
  intro l
  induction l with
  | nil => intro d t h; simp [List.dropWhile] at h
  | cons c cs ih =>
    intro d t h
    rw [List.dropWhile_cons] at h
    by_cases hc : p c = true
    · rw [if_pos hc] at h
      exact ih d t h
    · rw [if_neg hc] at h
      cases h
      simpa using hc

/-- Stripping leaves nothing whitespace at the front: a second
`dropWhile` is a no-op on a trimmed list. -/
theorem dropWhile_trimChars (l : List Char) :
    List.dropWhile isSpace (trimChars l) = trimChars l := by
  unfold trimChars
  rcases h : List.rdropWhile isSpace (List.dropWhile isSpace l) with _ | ⟨d, u⟩
  · rfl
  · have hpre := List.rdropWhile_prefix isSpace (List.dropWhile isSpace l)
    rw [h] at hpre
    obtain ⟨r, hr⟩ := hpre
    rw [List.cons_append] at hr
    have hd : isSpace d = false := head_not_of_dropWhile isSpace l d (u ++ r) hr.symm
    rw [List.dropWhile_cons, hd]
    simp

/-- A second right-trim is a no-op on a trimmed list. -/
theorem rdropWhile_trimChars (l : List Char) :
    List.rdropWhile isSpace (trimChars l) = trimChars l := by
  unfold trimChars
  exact List.rdropWhile_idempotent _ _

theorem trimChars_idem (l : List Char) : trimChars (trimChars l) = trimChars l := by
  show List.rdropWhile isSpace (List.dropWhile isSpace (trimChars l)) = trimChars l
  rw [dropWhile_trimChars, rdropWhile_trimChars]

theorem pyStrip_idem (s : String) : pyStrip (pyStrip s) = pyStrip s := by
  unfold pyStrip
  rw [toList_mk, trimChars_idem]

theorem isSpace_nlToSp (c : Char) : isSpace (nlToSp c) = isSpace c := by
  unfold nlToSp
  by_cases h : c = '\n'
  · subst h; decide
  · rw [if_neg h]

theorem nlToSp_idem (c : Char) : nlToSp (nlToSp c) = nlToSp c := by
  unfold nlToSp
  by_cases h : c = '\n'
  · subst h; decide
  · rw [if_neg h, if_neg h]

theorem replaceNl_idem (s : String) : replaceNl (replaceNl s) = replaceNl s := by
  unfold replaceNl
  rw [toList_mk, List.map_map]
  congr 1
  exact List.map_congr_left (fun c _ => nlToSp_idem c)

/-- The newline substitution respects whitespace-ness, so it commutes
with trimming on already-trimmed lists. -/
theorem trimChars_map_nl (m : List Char)
    (h1 : List.dropWhile isSpace m = m)
    (h2 : List.rdropWhile isSpace m = m) :
    trimChars (m.map nlToSp) = m.map nlToSp := by
  have hcomp : isSpace ∘ nlToSp = isSpace := funext isSpace_nlToSp
  have hdw : List.dropWhile isSpace (m.map nlToSp) = m.map nlToSp := by
    rw [List.dropWhile_map, hcomp, h1]
  have hrev : List.dropWhile isSpace m.reverse = m.reverse := by
    have := congrArg List.reverse h2
    rwa [List.rdropWhile, List.reverse_reverse] at this
  show List.rdropWhile isSpace (List.dropWhile isSpace (m.map nlToSp)) = m.map nlToSp
  rw [hdw, List.rdropWhile, ← List.map_reverse, List.dropWhile_map, hcomp, hrev,
    List.map_reverse, List.reverse_reverse]

theorem cleanHeader_idem (s : String) : cleanHeader (cleanHeader s) = cleanHeader s := by
  unfold cleanHeader replaceNl pyStrip
  simp only [toList_mk]
  rw [trimChars_map_nl (trimChars s.toList) (dropWhile_trimChars _) (rdropWhile_trimChars _),
    List.map_map]
  congr 1
  exact List.map_congr_left (fun c _ => nlToSp_idem c)

/- ## Cell- and column-level lemmas -/

theorem stripCell_isStr (x : Cell) : (stripCell x).isStr = true := rfl

theorem stripCell_isNull (x : Cell) : (stripCell x).isNull = false := rfl

theorem stripCell_idem (x : Cell) : stripCell (stripCell x) = stripCell x := by
  unfold stripCell
  show Cell.str (pyStrip (Cell.toPyStr (.str (pyStrip x.toPyStr)))) = _
  rw [Cell.toPyStr, pyStrip_idem]

theorem cleanCol_name (c : Col) : (cleanCol c).name = c.name := by
  unfold cleanCol
  split <;> rfl

theorem cleanCol_hasNonNull (c : Col) (h : c.hasNonNull = true) :
    (cleanCol c).hasNonNull = true := by
  unfold cleanCol
  split
  · rename_i hobj
    unfold Col.hasNonNull at h ⊢
    simp only [List.any_eq_true] at h ⊢
    obtain ⟨x, hx, _⟩ := h
    exact ⟨stripCell x, List.mem_map_of_mem _ hx, by rw [stripCell_isNull]; rfl⟩
  · exact h

theorem cleanCol_isObject_of_isObject (c : Col) (h : c.isObject = true) :
    (cleanCol c).isObject = true := by
  unfold cleanCol
  rw [if_pos h]
  unfold Col.isObject at h ⊢
  simp only [List.any_eq_true] at h ⊢
  obtain ⟨x, hx, _⟩ := h
  exact ⟨stripCell x, List.mem_map_of_mem _ hx, stripCell_isStr x⟩

theorem cleanCol_idem (c : Col) : cleanCol (cleanCol c) = cleanCol c := by
  by_cases h : c.isObject = true
  · have h2 := cleanCol_isObject_of_isObject c h
    unfold cleanCol
    rw [if_pos h]
    unfold cleanCol at h2
    rw [if_pos h] at h2
    rw [if_pos h2]
    simp only [List.map_map]
    congr 1
    exact List.map_congr_left (fun x _ => stripCell_idem x)
  · unfold cleanCol
    rw [if_neg h, if_neg h]

/- ## C9: idempotence of `_clean_df` -/

/-- C9: normalisation is idempotent — applying `_clean_df` to its own
output changes nothing (column names are already trimmed and
newline-free, no surviving column is all-null, and string columns are
already stringified and stripped). -/
theorem C9_clean_df_idempotent (df : DataFrame) :
    _clean_df (_clean_df df) = _clean_df df := by
  unfold _clean_df
  simp only
  congr 1
  have hname : ∀ x ∈ ((df.cols.map (fun c => { c with name := cleanHeader c.name })).filter
      Col.hasNonNull).map cleanCol,
      ({ x with name := cleanHeader x.name } : Col) = x := by
    intro x hx
    rw [List.mem_map] at hx
    obtain ⟨c', hc', rfl⟩ := hx
    rw [List.mem_filter] at hc'
    obtain ⟨hc'm, _⟩ := hc'
    rw [List.mem_map] at hc'm
    obtain ⟨c0, _, rfl⟩ := hc'm
    have : (cleanCol { c0 with name := cleanHeader c0.name }).name = cleanHeader c0.name := by
      rw [cleanCol_name]
    rw [this, cleanHeader_idem]
    cases hobj : cleanCol { c0 with name := cleanHeader c0.name } with
    | mk nm cs =>
      have : nm = cleanHeader c0.name := by
        have := cleanCol_name { c0 with name := cleanHeader c0.name }
        rw [hobj] at this
        exact this
      rw [this]
  rw [List.map_congr_left hname, List.map_id']
  have hkeep : ∀ x ∈ ((df.cols.map (fun c => { c with name := cleanHeader c.name })).filter
      Col.hasNonNull).map cleanCol, Col.hasNonNull x = true := by
    intro x hx
    rw [List.mem_map] at hx
    obtain ⟨c', hc', rfl⟩ := hx
    rw [List.mem_filter] at hc'
    exact cleanCol_hasNonNull c' hc'.2
  rw [List.filter_eq_self.mpr hkeep]
  have hclean : ∀ x ∈ ((df.cols.map (fun c => { c with name := cleanHeader c.name })).filter
      Col.hasNonNull).map cleanCol, cleanCol x = x := by
    intro x hx
    rw [List.mem_map] at hx
    obtain ⟨c', _, rfl⟩ := hx
    exact cleanCol_idem c'
  rw [List.map_congr_left hclean, List.map_id']

/- ## C10: object columns after normalisation -/

/-- C10: in the output of `_clean_df`, every string-typed (`object`
dtype) column consists solely of stripped strings — no cell of such a
column is null, a NaN having been replaced by the literal string
`"nan"` by `astype(str)`. -/
theorem C10_object_cols_stripped_nonnull (df : DataFrame) (c : Col)
    (hc : c ∈ (_clean_df df).cols) (hobj : c.isObject = true) :
    ∀ x ∈ c.cells, x.isNull = false ∧ ∃ s, x = Cell.str (pyStrip s) := by
  unfold _clean_df at hc
  simp only at hc
  rw [List.mem_map] at hc
  obtain ⟨c', _, rfl⟩ := hc
  by_cases h : c'.isObject = true
  · intro x hx
    unfold cleanCol at hx
    rw [if_pos h] at hx
    simp only at hx
    rw [List.mem_map] at hx
    obtain ⟨y, _, rfl⟩ := hx
    exact ⟨stripCell_isNull y, y.toPyStr, rfl⟩
  · exfalso
    unfold cleanCol at hobj
    rw [if_neg h] at hobj
    exact h hobj

/-- Witness for C10: the single column `[NaN, "  a "]` is object-typed
(it holds a string) and not all-null, so it survives; after `_clean_df`
it is `["nan", "a"]` — the NaN became the string `"nan"`, nothing is
null, everything is stripped. -/
theorem C10_object_cols_stripped_nonnull_witness :
    (_clean_df ⟨[⟨"note", [.null, .str "  a "]⟩]⟩).cols =
      [⟨"note", [.str "nan", .str "a"]⟩] ∧
    (∀ x ∈ (⟨"note", [.str "nan", .str "a"]⟩ : Col).cells,
      x.isNull = false ∧ ∃ s, x = Cell.str (pyStrip s)) :=
  ⟨by decide,
   C10_object_cols_stripped_nonnull ⟨[⟨"note", [.null, .str "  a "]⟩]⟩
     ⟨"note", [.str "nan", .str "a"]⟩ (by decide) (by decide)⟩

/- ## C5: zero tables is a hard failure -/

/-- C5: on a document with no `<table>` element at all, every selector
lookup misses, the page-wide `read_html` yields nothing, and
`parse_orders_table` fails with the line-162
`ValueError("No HTML tables found on Orders page.")` instead of
returning any default or empty table. -/
theorem C5_no_tables_hard_failure (doc : HtmlDoc) (h : doc.tables = []) :
    parse_orders_table doc = .error .noTablesFound := by
  obtain ⟨ts⟩ := doc
  replace h : ts = [] := h
  subst h
  rfl

/-- Witness for C5 at the empty document. -/
theorem C5_no_tables_hard_failure_witness :
    parse_orders_table ⟨[]⟩ = .error .noTablesFound :=
  C5_no_tables_hard_failure ⟨[]⟩ rfl

/- ## C6: selector fast path -/

/-- A successful selector cascade names a selector of the list whose
lookup produced the table. -/
theorem firstSelectorMatchAux_exists :
    ∀ (ls : List Selector) (doc : HtmlDoc) (t : HtmlTable),
      firstSelectorMatchAux ls doc = some t →
      ∃ sel ∈ ls, findTable doc sel = some t := by
  intro ls
  induction ls with
  | nil => intro doc t h; simp [firstSelectorMatchAux] at h
  | cons sel rest ih =>
    intro doc t h
    rw [firstSelectorMatchAux] at h
    cases hf : findTable doc sel with
    | some u =>
      rw [hf] at h
      simp only [Option.some.injEq] at h
      exact ⟨sel, List.mem_cons_self sel rest, by rw [hf, h]⟩
    | none =>
      rw [hf] at h
      obtain ⟨s, hs, h2⟩ := ih doc t h
      exact ⟨s, List.mem_cons_of_mem sel hs, h2⟩

/-- C6 (amended): whenever the ordered selector cascade finds a table
(`firstSelectorMatch`), and that table is parseable, `parse_orders_table`
returns exactly that table normalised — the result is independent of
every other table and of all vocabulary scores — and the returned table
genuinely matches one of the known selectors and belongs to the
document. -/
theorem C6_fast_path_first_match (doc : HtmlDoc) (t : HtmlTable) (df : DataFrame)
    (h1 : firstSelectorMatch doc = some t) (h2 : t.parse = some df) :
    parse_orders_table doc = .ok (_clean_df df) ∧
      ∃ sel ∈ SELECTORS, matchesSel sel t = true ∧ t ∈ doc.tables := by
  constructor
  · simp only [parse_orders_table, h1, h2]
  · obtain ⟨sel, hs, hf⟩ := firstSelectorMatchAux_exists SELECTORS doc t h1
    exact ⟨sel, hs, List.find?_some hf, List.mem_of_find?_eq_some hf⟩

/-- An empty `<table id="orders">` element: BeautifulSoup's lookup finds
it, but `pd.read_html(str(table))` raises on it. -/
def tEmptyIdOrders : HtmlTable := ⟨some "orders", none, none⟩

/-- A parseable table carrying `class="orders"`. -/
def tClassOrders : HtmlTable := ⟨none, some "orders", some dfReqOnly⟩

def exDoc6 : HtmlDoc := ⟨[tEmptyIdOrders, tClassOrders]⟩

/-- Counterexample to C6 as stated: `exDoc6` contains a parseable table
matching a known selector (`class="orders"`), yet `parse_orders_table`
does not return it — the cascade hits the earlier, higher-priority
`id="orders"` match first, whose un-guarded `pd.read_html` call raises,
so the whole call fails. -/
theorem C6_counterexample_unparseable_match :
    tClassOrders ∈ exDoc6.tables ∧
    matchesSel .classOrders tClassOrders = true ∧
    tClassOrders.parse = some dfReqOnly ∧
    parse_orders_table exDoc6 = .error .readHtmlFailed :=
  ⟨by decide, by decide, by decide, by rfl⟩

/-- A high-scoring candidate that matches no known selector. -/
def dfHighScore : DataFrame :=
  ⟨[⟨"Order ID", [.int 1]⟩, ⟨"Status", [.str "open"]⟩, ⟨"Date", [.str "2024-06-01"]⟩]⟩

def tHighScore : HtmlTable := ⟨none, none, some dfHighScore⟩

/-- A zero-scoring table carrying `id="orders"`. -/
def tIdOrders : HtmlTable := ⟨some "orders", none, some dfFooBar⟩

def exDoc6w : HtmlDoc := ⟨[tHighScore, tIdOrders]⟩

/-- Witness for the amended C6: the selector-matching, zero-scoring
table wins over a non-matching table that scores strictly higher on the
vocabulary. -/
theorem C6_fast_path_first_match_witness :
    score dfHighScore > score dfFooBar ∧ survivesB dfHighScore = true ∧
    (∀ sel ∈ SELECTORS, matchesSel sel tHighScore = false) ∧
    parse_orders_table exDoc6w = .ok (_clean_df dfFooBar) ∧
    (∃ sel ∈ SELECTORS, matchesSel sel tIdOrders = true ∧ tIdOrders ∈ exDoc6w.tables) :=
  ⟨by decide, by decide, by decide,
    (C6_fast_path_first_match exDoc6w tIdOrders dfFooBar (by decide) (by decide)).1,
    (C6_fast_path_first_match exDoc6w tIdOrders dfFooBar (by decide) (by decide)).2⟩

/- ## C7: the heuristic fallback -/

/-- Loop invariant of the best-table scan: either no table seen so far
survives the degeneracy filter and the incumbent is still
`(None, -1)`, or the incumbent is the first maximum-scoring surviving
table among the first `k`. -/
def BestInv (ts : List DataFrame) (k : Nat) (bi : Option Nat) (bs : Int) : Prop :=
  (bi = none ∧ bs = -1 ∧ ∀ j t, j < k → ts[j]? = some t → survivesB t = false)
  ∨ (∃ i ti, bi = some i ∧ i < k ∧ ts[i]? = some ti ∧ survivesB ti = true ∧
      bs = (score ti : Int) ∧
      (∀ j t, j < k → ts[j]? = some t → survivesB t = true → score t ≤ score ti) ∧
      (∀ j t, j < i → ts[j]? = some t → survivesB t = true → score t < score ti))

theorem bestLoop_inv :
    ∀ (rest ts : List DataFrame) (k : Nat) (bi : Option Nat) (bs : Int),
      ts.drop k = rest → BestInv ts k bi bs →
      BestInv ts ts.length (bestLoop rest k bi bs).1 (bestLoop rest k bi bs).2 := by
  intro rest
  induction rest with
  | nil =>
    intro ts k bi bs hdrop hinv
    have hlen : ts.length ≤ k := by
      have hdl := congrArg List.length hdrop
      rw [List.length_drop, List.length_nil] at hdl
      omega
    simp only [bestLoop]
    rcases hinv with ⟨h1, h2, h3⟩ | ⟨i, ti, h1, _, h3, h4, h5, h6, h7⟩
    · exact Or.inl ⟨h1, h2, fun j t hj hjt => h3 j t (by omega) hjt⟩
    · exact Or.inr ⟨i, ti, h1, (List.getElem?_eq_some.mp h3).1, h3, h4, h5,
        fun j t hj hjt hst => h6 j t (by omega) hjt hst, h7⟩
  | cons df rest ih =>
    intro ts k bi bs hdrop hinv
    have hk : ts[k]? = some df := by
      have h0 := List.getElem?_drop ts k 0
      rw [hdrop] at h0
      simpa using h0.symm
    have hdrop' : ts.drop (k + 1) = rest := by
      have h1 := List.drop_drop 1 k ts
      rw [hdrop] at h1
      simpa using h1.symm
    simp only [bestLoop]
    by_cases hcond : bs < (score df : Int) ∧ survivesB df = true
    · rw [if_pos hcond]
      apply ih ts (k + 1) (some k) (score df) hdrop'
      refine Or.inr ⟨k, df, rfl, by omega, hk, hcond.2, rfl, ?_, ?_⟩
      · intro j t hj hjt hst
        rcases Nat.lt_succ_iff_lt_or_eq.mp hj with hj' | hj'
        · rcases hinv with ⟨_, h2, h3⟩ | ⟨i, ti, _, _, h3, h4, h5, h6, h7⟩
          · have hcontr := h3 j t hj' hjt
            rw [hcontr] at hst
            exact absurd hst (by decide)
          · have hle := h6 j t hj' hjt hst
            have hlt : (score ti : Int) < (score df : Int) := by
              rw [← h5]; exact hcond.1
            have : score ti < score df := by exact_mod_cast hlt
            omega
        · subst hj'
          rw [hjt] at hk
          injection hk with hk
          rw [hk]
      · intro j t hj hjt hst
        rcases hinv with ⟨_, h2, h3⟩ | ⟨i, ti, _, _, h3, h4, h5, h6, h7⟩
        · have hcontr := h3 j t hj hjt
          rw [hcontr] at hst
          exact absurd hst (by decide)
        · have hle := h6 j t hj hjt hst
          have hlt : (score ti : Int) < (score df : Int) := by
            rw [← h5]; exact hcond.1
          have : score ti < score df := by exact_mod_cast hlt
          omega
    · rw [if_neg hcond]
      apply ih ts (k + 1) bi bs hdrop'
      rcases hinv with ⟨h1, h2, h3⟩ | ⟨i, ti, h1, h2, h3, h4, h5, h6, h7⟩
      · refine Or.inl ⟨h1, h2, ?_⟩
        intro j t hj hjt
        rcases Nat.lt_succ_iff_lt_or_eq.mp hj with hj' | hj'
        · exact h3 j t hj' hjt
        · subst hj'
          rw [hjt] at hk
          injection hk with hk
          subst hk
          cases hsv : survivesB t with
          | false => rfl
          | true =>
            exfalso
            apply hcond
            refine ⟨?_, hsv⟩
            rw [h2]
            have hge : (0 : Int) ≤ (score t : Int) := Int.ofNat_nonneg _
            omega
      · refine Or.inr ⟨i, ti, h1, by omega, h3, h4, h5, ?_, h7⟩
        intro j t hj hjt hst
        rcases Nat.lt_succ_iff_lt_or_eq.mp hj with hj' | hj'
        · exact h6 j t hj' hjt hst
        · subst hj'
          rw [hjt] at hk
          injection hk with hk
          subst hk
          have hnlt : ¬ bs < (score t : Int) := fun hlt => hcond ⟨hlt, hst⟩
          rw [h5] at hnlt
          have hle : (score t : Int) ≤ (score ti : Int) := by omega
          exact_mod_cast hle

/-- C7: the heuristic fallback of `parse_orders_table`.  When no known
selector matches and at least one table parsed, the function returns,
normalised, either (a) a surviving (≥2 columns, ≥1 row) table whose
score is maximal among all surviving tables and strictly greater than
every earlier surviving table's score (first occurrence wins ties), or
(b) the very first parsed table when no table survives the degeneracy
filter, regardless of score. -/
theorem C7_fallback_best_scoring (doc : HtmlDoc)
    (hsel : firstSelectorMatch doc = none) (hne : parsedTables doc ≠ []) :
    (∃ (i : Nat) (ti : DataFrame), (parsedTables doc)[i]? = some ti ∧ survivesB ti = true ∧
      (∀ (j : Nat) (t : DataFrame), (parsedTables doc)[j]? = some t →
        survivesB t = true → score t ≤ score ti) ∧
      (∀ (j : Nat) (t : DataFrame), j < i → (parsedTables doc)[j]? = some t →
        survivesB t = true → score t < score ti) ∧
      parse_orders_table doc = .ok (_clean_df ti))
    ∨ ((∀ (j : Nat) (t : DataFrame), (parsedTables doc)[j]? = some t → survivesB t = false) ∧
      ∃ t0, (parsedTables doc).head? = some t0 ∧
        parse_orders_table doc = .ok (_clean_df t0)) := by
  have hinv0 : BestInv (parsedTables doc) 0 none (-1) :=
    Or.inl ⟨rfl, rfl, fun j t hj _ => absurd hj (Nat.not_lt_zero j)⟩
  have hmain := bestLoop_inv (parsedTables doc) (parsedTables doc) 0 none (-1)
    (List.drop_zero _) hinv0
  rcases hmain with ⟨h1, _, h3⟩ | ⟨i, ti, h1, _, h3, h4, _, h6, h7⟩
  · right
    constructor
    · intro j t hjt
      have hlt := (List.getElem?_eq_some.mp hjt).1
      exact h3 j t hlt hjt
    · refine ⟨(parsedTables doc).head hne, List.head?_eq_head hne, ?_⟩
      simp only [parse_orders_table, hsel,
        show best_idx (parsedTables doc) = none from h1, List.head?_eq_head hne]
  · left
    refine ⟨i, ti, h3, h4, ?_, ?_, ?_⟩
    · intro j t hjt hst
      have hlt := (List.getElem?_eq_some.mp hjt).1
      exact h6 j t hlt hjt hst
    · intro j t hj hjt hst
      exact h7 j t hj hjt hst
    · simp only [parse_orders_table, hsel,
        show best_idx (parsedTables doc) = some i from h1, h3]

/-- A degenerate single-column candidate. -/
def dfOneCol : DataFrame := ⟨[⟨"x", [.int 1]⟩]⟩

def exDoc7 : HtmlDoc := ⟨[⟨none, none, some dfOneCol⟩, ⟨none, none, some dfHighScore⟩]⟩

/-- Witness for C7: with no selector matching, the degenerate
single-column table is discarded and the surviving scored table is
returned. -/
theorem C7_fallback_best_scoring_witness :
    firstSelectorMatch exDoc7 = none ∧ parsedTables exDoc7 ≠ [] ∧
    ((∃ (i : Nat) (ti : DataFrame), (parsedTables exDoc7)[i]? = some ti ∧
      survivesB ti = true ∧
      (∀ (j : Nat) (t : DataFrame), (parsedTables exDoc7)[j]? = some t →
        survivesB t = true → score t ≤ score ti) ∧
      (∀ (j : Nat) (t : DataFrame), j < i → (parsedTables exDoc7)[j]? = some t →
        survivesB t = true → score t < score ti) ∧
      parse_orders_table exDoc7 = .ok (_clean_df ti))
    ∨ ((∀ (j : Nat) (t : DataFrame), (parsedTables exDoc7)[j]? = some t →
        survivesB t = false) ∧
      ∃ t0, (parsedTables exDoc7).head? = some t0 ∧
        parse_orders_table exDoc7 = .ok (_clean_df t0))) :=
  ⟨by decide, by decide,
    C7_fallback_best_scoring exDoc7 (by decide) (by decide)⟩

/-- C1: `_clean_df` performs no required-column validation.  On the input
of the repo's own `test_clean_df_missing_required_columns` — a frame with
columns `foo`, `bar` and no order identifier, date or total — it
succeeds and returns the frame unchanged instead of failing with a
schema error naming the missing columns. -/
theorem C1_clean_df_missing_required_succeeds :
    _clean_df dfFooBar = dfFooBar := by decide

/-- C4: `_clean_df` performs no optional-column backfill.  On the input
of the repo's own `test_clean_df_fills_optional_columns` — a frame with
exactly the three required columns — the output column set is exactly
the input's: no absent optional column is added with a default. -/
theorem C4_clean_df_no_optional_backfill :
    (_clean_df dfReqOnly).cols.map Col.name = ["order_id", "date", "total"] := by decide

/-- C8: normalisation does not deduplicate and preserves source row
order: on the §8 scenario table `_clean_df` is the identity and its row
list is the four source rows in source order, the duplicate pair
included. -/
theorem C8_clean_df_no_dedup_preserves_rows :
    _clean_df dfScenario = dfScenario ∧
    dfRows (_clean_df dfScenario) =
      [[.int 2, .str "2024-06-02", .int 20],
       [.int 1, .str "2024-06-01", .int 10],
       [.int 1, .str "2024-06-01", .int 10],
       [.int 3, .str "2024-06-03", .int 30]] := by decide

/- ## C2 / C3: the output writer -/

/-- A pre-existing output state: a stale `orders` table sits in the
SQLite file and no JSON artifact exists. -/
def staleState : OutputState :=
  ⟨none, none, none, some ⟨["junk"], [[.int 99]]⟩⟩

/-- C2: `save_outputs` on the normalised scenario table writes the same
header and row list to csv, xlsx and the SQLite `orders` table —
replacing the stale pre-existing `orders` table — but writes only those
three targets: no JSON artifact is produced (the source has no
`out_json` and never calls `to_json`, though the repo's own test expects
a fourth, JSON, output). -/
theorem C2_save_outputs_three_targets_no_json :
    save_outputs (_clean_df dfScenario) staleState =
      ⟨some (dfContent (_clean_df dfScenario)),
       some (dfContent (_clean_df dfScenario)),
       none,
       some (dfContent (_clean_df dfScenario))⟩ := by decide

/-- The oracle of a run whose very first write (csv) hits a filesystem
error while the later targets would have succeeded. -/
def oCsvFail : WriteOracle := ⟨false, true, true⟩

/-- Counterexample to C3 as stated: with the csv write failing and the
xlsx and SQLite writes able to succeed, `save_outputs` raises
immediately — the xlsx and SQLite targets are never attempted (their
locations stay empty) and the caller gets only the propagated exception,
no partial result naming successful targets. -/
theorem C3_counterexample_failure_stops_later_writes :
    oCsvFail.xlsxOk = true ∧ oCsvFail.dbOk = true ∧
    save_outputs_f (_clean_df dfScenario) ⟨none, none, none, none⟩ oCsvFail =
      (⟨none, none, none, none⟩, .error ⟨.csvT⟩) :=
  ⟨rfl, rfl, rfl⟩

/-- C3 (amended): the three writes (csv, then xlsx, then SQLite — there
is no JSON target) are attempted strictly in sequence: the call succeeds
exactly when all three writes succeed; a failing write propagates its
exception, leaving every later target unattempted (its location keeps
its prior content); and artifacts already written before the failure
are kept, never cleaned up. -/
theorem C3_sequential_writes_no_partial_result (df : DataFrame) (s : OutputState)
    (o : WriteOracle) :
    ((save_outputs_f df s o).2 = .ok () ↔
      o.csvOk = true ∧ o.xlsxOk = true ∧ o.dbOk = true) ∧
    (o.csvOk = false → save_outputs_f df s o = (s, .error ⟨.csvT⟩)) ∧
    (o.csvOk = true → (save_outputs_f df s o).1.csvFile = some (dfContent df)) ∧
    (o.csvOk = true → o.xlsxOk = false →
      save_outputs_f df s o =
        ({ s with csvFile := some (dfContent df) }, .error ⟨.xlsxT⟩)) ∧
    (o.csvOk = true → o.xlsxOk = true → o.dbOk = false →
      save_outputs_f df s o =
        ({ s with csvFile := some (dfContent df),
                  xlsxFile := some (dfContent df) }, .error ⟨.dbT⟩)) := by
  obtain ⟨a, b, c⟩ := o
  cases a <;> cases b <;> cases c <;>
    simp [save_outputs_f]

/-- Witness for the amended C3: csv succeeds, xlsx fails — the csv
artifact is kept, the SQLite target is untouched, the caller gets the
exception. -/
theorem C3_sequential_writes_no_partial_result_witness :
    save_outputs_f dfScenario staleState ⟨true, false, true⟩ =
      ({ staleState with csvFile := some (dfContent dfScenario) },
        .error ⟨.xlsxT⟩) :=
  (C3_sequential_writes_no_partial_result dfScenario staleState
    ⟨true, false, true⟩).2.2.2.1 rfl rfl

end YBS
